import Mathlib

/-!
Verification development for the crossstream repository.

The definitions below are a shallow embedding of the process-supervision and
log-telemetry core of the repository:

* `parse_status_update_log` and `render_segment_map` embed the functions of the
  same names in `src/backend/service_orchestrator.py`.  Python regular
  expression searches are embedded as explicit left-to-right scanners over
  `List Char`; the pattern `name=(\d+)` is embedded with ASCII digits, and
  `key="([^"]+)"` as the first occurrence of the key followed by a non-empty
  run of non-quote characters and a closing quote.  The permissive
  re-encoding of the segments value (`encode('utf-8','replace')`) is the
  identity on the well-formed unicode strings of the embedding.
* `TranscoderManager.start` and `TranscoderManager.stop` embed the process
  supervisor of `src/backend/transcoder.py`.  Interactions with the operating
  system (signals, waits, process spawning, `sys.exit`) are embedded as an
  explicit action trace plus an environment parameter choosing which of the
  code paths the operating system drives the function down; `str.format` on
  the config template is embedded by `formatTemplate`, a single left-to-right
  scan replacing the two placeholders, meaningful only on the valid templates
  of the config-template contract (literal text free of brace characters
  around the two plain named placeholders) — on any other template Python
  `str.format` raises instead of producing output (or, for doubled-brace
  escapes, collapses the pair), paths this embedding does not model, and the
  theorems quantify only over the valid templates.
* `drain_logs_transcoder` embeds the transcoder-queue loop of
  `ServiceOrchestrator.drain_logs`: the drained lines are ANSI-stripped and
  trimmed, status-update lines are parsed and immediately rendered into the
  telemetry widgets (clear-then-write, so each render supersedes the previous
  one), and every other line is batched as a plain log line.
-/

/-- Drops `ps` from the front of `s`, returning the remainder when `ps` is a
leading segment of `s` (the literal-matching step of the embedded regex
searches). -/
def dropPre : List Char → List Char → Option (List Char)
  | [], s => some s
  | _ :: _, [] => none
  | p :: ps, c :: cs => if p = c then dropPre ps cs else none

/-- Substring containment test, embedding the Python `pat in line` check. -/
def hasSub (pat : List Char) : List Char → Bool
  | [] => decide (pat = [])
  | c :: cs => (dropPre pat (c :: cs)).isSome || hasSub pat cs

/-- Value of a run of ASCII digits, embedding `int(...)` on a `\d+` capture. -/
def digitsToNat (ds : List Char) : Nat :=
  ds.foldl (fun a c => a * 10 + (c.toNat - 48)) 0

/-- Tries to match `name=(\d+)` at the head of `s`. -/
def matchStatAt (name : List Char) (s : List Char) : Option Nat :=
  match dropPre (name ++ ['=']) s with
  | none => none
  | some rest =>
    let ds := rest.takeWhile Char.isDigit
    if ds = [] then none else some (digitsToNat ds)

/-- Leftmost match of `name=(\d+)`, embedding `re.search(rf'{stat}=(\d+)', line)`
(the brace-delimited part being the Python f-string interpolation of the
counter name). -/
def searchStat (name : List Char) : List Char → Option Nat
  | [] => none
  | c :: cs =>
    match matchStatAt name (c :: cs) with
    | some v => some v
    | none => searchStat name cs

/-- Tries to match `key` followed by a non-empty run of non-quote characters
and a closing quote at the head of `s`, returning the captured run. -/
def matchQuotedAt (key : List Char) (s : List Char) : Option (List Char) :=
  match dropPre key s with
  | none => none
  | some rest =>
    let content := rest.takeWhile (fun c => c ≠ '"')
    if content = [] then none
    else
      match rest.drop content.length with
      | '"' :: _ => some content
      | _ => none

/-- Leftmost match, embedding `re.search(r'key="([^"]+)"', line)`. -/
def searchQuoted (key : List Char) : List Char → Option (List Char)
  | [] => none
  | c :: cs =>
    match matchQuotedAt key (c :: cs) with
    | some v => some v
    | none => searchQuoted key cs

/-- `DARK_GREEN` of `render_segment_map`. -/
def DARK_GREEN : String := "#207520"

/-- `ORANGE` of `render_segment_map`. -/
def ORANGE : String := "#d97c13"

/-- `RED` of `render_segment_map`. -/
def RED : String := "red"

/-- `WHITE` of `render_segment_map`. -/
def WHITE : String := "white"

/-- The two glyphs treated as a full square by `render_segment_map`. -/
def FULL_SQUARES : List Char := ['█', '■']

/-- The `zip_longest` fill value of `render_segment_map` (an en dash). -/
def fillerGlyph : Char := '–'

/-- The styled element `render_segment_map` emits for one position: the body
of the `for seg_char, dl_char in zip_longest(...)` loop. -/
def renderCell (seg dl : Char) : String :=
  if dl = '✓' then
    if seg ∈ FULL_SQUARES then
      "[" ++ DARK_GREEN ++ "]" ++ String.mk [seg] ++ "[/]"
    else
      "[on " ++ DARK_GREEN ++ " " ++ WHITE ++ "]" ++ String.mk [seg] ++ "[/]"
  else if dl = '▶' then
    "[on " ++ ORANGE ++ " " ++ WHITE ++ "]" ++ String.mk [seg] ++ "[/]"
  else if dl = '!' then
    "[on " ++ RED ++ " " ++ WHITE ++ "]" ++ String.mk [seg] ++ "[/]"
  else
    String.mk [seg]

/-- `itertools.zip_longest(xs, ys, fillvalue) `, embedded by its semantics on
two character sequences: position `i` of the result pairs the `i`-th element
of each input, the shorter side padded with `fill`. -/
def zipLongest (fill : Char) (xs ys : List Char) : List (Char × Char) :=
  (List.range (max xs.length ys.length)).map fun i => (xs.getD i fill, ys.getD i fill)

/-- The list of styled elements produced by `render_segment_map` (the `out`
list of the source, before the final `"".join`). -/
def render_segment_map_elems (segments downloads : String) : List String :=
  (zipLongest fillerGlyph segments.data downloads.data).map fun p => renderCell p.1 p.2

/-- `render_segment_map` of `src/backend/service_orchestrator.py`. -/
def render_segment_map (segments downloads : String) : String :=
  String.join (render_segment_map_elems segments downloads)

/-- The five counter names scanned by `parse_status_update_log`, in source
order. -/
def statNames : List String := ["queued", "in_progress", "done", "dl_requested", "dl_sent"]

/-- `stats.get(name, 0)`: defaulting read from the parsed stats mapping. -/
def statGet (stats : List (String × Nat)) (name : String) : Nat :=
  (stats.lookup name).getD 0

/-- Right-justifying pad of Python format fields such as `{q:2d}`: pads with
spaces on the left up to width `w` and never truncates. -/
def padL (w : Nat) (s : String) : String :=
  String.mk (List.replicate (w - s.data.length) ' ') ++ s

/-- The key `segments="` of the segments capture. -/
def segmentsKey : List Char := "segments=\"".data

/-- The key `downloads="` of the downloads capture. -/
def downloadsKey : List Char := "downloads=\"".data

/-- The result dictionary of `parse_status_update_log`. -/
structure ParsedStatusUpdate where
  segments : String
  downloads : String
  stats : List (String × Nat)
  colored_segments : String
  stats_line : String
deriving DecidableEq

/-- `parse_status_update_log` of `src/backend/service_orchestrator.py`.  The
stats mapping is an insertion-ordered association list holding exactly the
counters whose `name=(\d+)` search matched. -/
def parse_status_update_log (line : String) : ParsedStatusUpdate :=
  let downloads := (searchQuoted downloadsKey line.data).getD []
  let segments := (searchQuoted segmentsKey line.data).getD []
  let stats := statNames.filterMap fun n => (searchStat n.data line.data).map fun v => (n, v)
  let colored_segments := render_segment_map (String.mk segments) (String.mk downloads)
  let q := statGet stats "queued"
  let i := statGet stats "in_progress"
  let d := statGet stats "done"
  let r := statGet stats "dl_requested"
  let s := statGet stats "dl_sent"
  let stats_line := "Seg: " ++ padL 2 (Nat.repr q) ++ "q  " ++ padL 1 (Nat.repr i) ++ "i "
    ++ padL 2 (Nat.repr d) ++ "d / DL: " ++ padL 2 (Nat.repr r) ++ "r  "
    ++ padL 1 (Nat.repr s) ++ "s"
  { segments := String.mk segments
    downloads := String.mk downloads
    stats := stats
    colored_segments := colored_segments
    stats_line := stats_line }

/-- The `{media_dir}` placeholder of the config template (braces written as
their code points). -/
def mediaPlaceholder : List Char :=
  ['\x7b', 'm', 'e', 'd', 'i', 'a', '_', 'd', 'i', 'r', '\x7d']

/-- The `{transcoder_port}` placeholder of the config template. -/
def portPlaceholder : List Char :=
  ['\x7b', 't', 'r', 'a', 'n', 's', 'c', 'o', 'd', 'e', 'r', '_', 'p', 'o', 'r', 't', '\x7d']

/-- Remainder after a successful `dropPre` is never longer than the input. -/
theorem dropPre_length_le (ps : List Char) :
    ∀ s r : List Char, dropPre ps s = some r → r.length ≤ s.length := by
  induction ps with
  | nil =>
    intro s r h
    simp [dropPre] at h
    simp [h]
  | cons p ps ih =>
    intro s r h
    cases s with
    | nil => simp [dropPre] at h
    | cons c cs =>
      by_cases hpc : p = c
      · simp [dropPre, hpc] at h
        exact Nat.le_trans (ih cs r h) (Nat.le_succ _)
      · simp [dropPre, hpc] at h

/-- Remainder after dropping a non-empty leading segment is strictly shorter. -/
theorem dropPre_cons_length_lt (p : Char) (ps s r : List Char)
    (h : dropPre (p :: ps) s = some r) : r.length < s.length := by
  cases s with
  | nil => simp [dropPre] at h
  | cons c cs =>
    by_cases hpc : p = c
    · simp [dropPre, hpc] at h
      exact Nat.lt_succ_of_le (dropPre_length_le ps cs r h)
    · simp [dropPre, hpc] at h

/-- `str.format(media_dir=dir, transcoder_port=port)` on the config template,
embedded for the valid templates of the config-template contract: literal
text holding no brace character around the two plain named placeholders.  On
those templates `str.format` performs one left-to-right scan, each
placeholder occurrence replaced by its value, substituted values never
rescanned, all other text copied verbatim — exactly this function.  Outside
that domain Python behaves differently: a lone brace or an unknown or
spec-carrying field makes `str.format` raise (`ValueError` or `KeyError`)
and nothing is written, and a doubled-brace escape succeeds with the pair
collapsed to one literal brace; this total function models neither, so the
theorems about `start` invoke it only under hypotheses excluding both brace
characters from the literal segments. -/
def formatTemplate (dir port : List Char) : List Char → List Char
  | [] => []
  | c :: cs =>
    match h1 : dropPre mediaPlaceholder (c :: cs) with
    | some rest => dir ++ formatTemplate dir port rest
    | none =>
      match h2 : dropPre portPlaceholder (c :: cs) with
      | some rest => port ++ formatTemplate dir port rest
      | none => c :: formatTemplate dir port cs
termination_by l => l.length
decreasing_by
  · simp only [mediaPlaceholder] at h1
    exact dropPre_cons_length_lt _ _ _ _ h1
  · simp only [portPlaceholder] at h2
    exact dropPre_cons_length_lt _ _ _ _ h2
  · simp

/-- Handle to the spawned worker process; `running` is the settled `poll()`
status (`true` when `poll()` returns `None`). -/
structure Proc where
  running : Bool
deriving DecidableEq

/-- State of `TranscoderManager` (`src/backend/transcoder.py`): the config
substitution inputs, the template file content, the declared stop timeout in
seconds and the optional process handle. -/
structure TranscoderManager where
  media_dir : String
  transcoder_port : Nat
  config_template : String
  stop_timeout : Nat
  process : Option Proc
deriving DecidableEq

/-- Operating-system visible steps taken by `TranscoderManager.stop`. -/
inductive StopAction where
  | sendGraceful
  | waitTimeout
  | kill
  | waitUncond
deriving DecidableEq

/-- Environment outcome driving one run of `TranscoderManager.stop` over a
live process: the graceful wait returns in time, the graceful wait raises
`TimeoutExpired`, or some exception escapes the try block before or after the
graceful signal was sent, with `poll() is None` at the handler recorded as
the boolean. -/
inductive StopEnv where
  | waitExits
  | waitTimesOut
  | raiseBeforeSignal (aliveAtHandler : Bool)
  | raiseAfterSignal (aliveAtHandler : Bool)
deriving DecidableEq

/-- `TranscoderManager.stop`: returns the post-call state together with the
trace of process-control actions.  The `finally` clause always clears the
handle; the `except` clause kills only when `poll()` still reports a live
process; the no-process case returns before the try block with no actions. -/
def TranscoderManager.stop (m : TranscoderManager) (env : StopEnv) :
    TranscoderManager × List StopAction :=
  match m.process with
  | none => (m, [])
  | some _ =>
    let cleared := { m with process := none }
    match env with
    | .waitExits => (cleared, [.sendGraceful, .waitTimeout])
    | .waitTimesOut => (cleared, [.sendGraceful, .waitTimeout, .kill, .waitUncond])
    | .raiseBeforeSignal true => (cleared, [.kill, .waitUncond])
    | .raiseBeforeSignal false => (cleared, [])
    | .raiseAfterSignal true => (cleared, [.sendGraceful, .kill, .waitUncond])
    | .raiseAfterSignal false => (cleared, [.sendGraceful])

/-- Side effects of `TranscoderManager.start`: the config file write (with its
content), the `subprocess.Popen` spawn and the fixed settle delay. -/
inductive StartAction where
  | writeConfig (content : String)
  | spawn
  | settleDelay
deriving DecidableEq

/-- Result of `TranscoderManager.start`: post-call state, whether the launch
was reported as a fatal failure (`sys.exit(1)` after the settle check saw an
exited process) and the action trace. -/
structure StartOutcome where
  state : TranscoderManager
  launchFailed : Bool
  actions : List StartAction
deriving DecidableEq

/-- `TranscoderManager.start`, with the environment boolean telling whether
the spawned process had already exited when `poll()` ran after the settle
delay.  `media_dir.resolve()` is embedded as the stored path string and the
template file read as the stored template content; the handle is assigned
before the settle check, exactly as in the source. -/
def TranscoderManager.start (m : TranscoderManager) (exitsImmediately : Bool) : StartOutcome :=
  let content := String.mk
    (formatTemplate m.media_dir.data (Nat.repr m.transcoder_port).data m.config_template.data)
  { state := { m with process := some { running := !exitsImmediately } }
    launchFailed := exitsImmediately
    actions := [.writeConfig content, .spawn, .settleDelay] }

/-- Single-character alternative of the ANSI escape pattern of `_strip_ansi`:
the character class covering at-sign through uppercase Z plus backslash
through underscore. -/
def isAnsiSingleFinal (c : Char) : Bool :=
  ('@' ≤ c && c ≤ 'Z') || ('\\' ≤ c && c ≤ '_')

/-- CSI parameter bytes: digit zero through question mark. -/
def isCsiParam (c : Char) : Bool := '0' ≤ c && c ≤ '?'

/-- CSI intermediate bytes: space through solidus. -/
def isCsiInter (c : Char) : Bool := ' ' ≤ c && c ≤ '/'

/-- CSI final bytes: at-sign through tilde. -/
def isCsiFinal (c : Char) : Bool := '@' ≤ c && c ≤ '~'

/-- Dropping a while-matching leading run never lengthens a list. -/
theorem dropWhileLenLe (p : Char → Bool) (l : List Char) :
    (l.dropWhile p).length ≤ l.length := by
  induction l with
  | nil => simp
  | cons c cs ih =>
    by_cases hc : p c
    · simp only [List.dropWhile_cons, hc, if_true]
      exact Nat.le_trans ih (Nat.le_succ _)
    · simp [List.dropWhile_cons, hc]

/-- Attempt to consume a CSI body after an escape byte and an opening square
bracket: a run of parameter bytes, a run of intermediate bytes and one final
byte; returns the remaining input on a match. -/
def csiTail (ds : List Char) : Option (List Char) :=
  match (ds.dropWhile isCsiParam).dropWhile isCsiInter with
  | [] => none
  | f :: fs => if isCsiFinal f then some fs else none

/-- A matched CSI body consumes at least the final byte. -/
theorem csiTail_length (ds r : List Char) (h : csiTail ds = some r) : r.length < ds.length := by
  unfold csiTail at h
  cases hd : (ds.dropWhile isCsiParam).dropWhile isCsiInter with
  | nil => rw [hd] at h; simp at h
  | cons f fs =>
    rw [hd] at h
    by_cases hf : isCsiFinal f
    · simp [hf] at h
      subst h
      have h2 : (f :: fs).length ≤ ds.length := by
        rw [← hd]
        exact Nat.le_trans (dropWhileLenLe _ _) (dropWhileLenLe _ _)
      simp at h2
      omega
    · simp [hf] at h

/-- `ServiceOrchestrator._strip_ansi`: removes every non-overlapping match of
the escape-sequence pattern, scanning left to right, leaving unmatched
escape bytes in place. -/
def stripAnsi : List Char → List Char
  | [] => []
  | c :: cs =>
    if c = '\x1b' then
      match cs with
      | [] => [c]
      | d :: ds =>
        if isAnsiSingleFinal d then stripAnsi ds
        else if d = '[' then
          match h : csiTail ds with
          | some fs => stripAnsi fs
          | none => c :: stripAnsi (d :: ds)
        else c :: stripAnsi (d :: ds)
    else c :: stripAnsi cs
termination_by l => l.length
decreasing_by
  all_goals first
    | omega
    | (simp <;> omega)
    | (have hb := csiTail_length _ _ h; simp <;> omega)

/-- Python `str.strip()`: removes leading and trailing whitespace. -/
def pyStrip (s : String) : String :=
  String.mk (((s.data.dropWhile Char.isWhitespace).reverse.dropWhile Char.isWhitespace).reverse)

/-- The telemetry marker substring `status update`. -/
def markerChars : List Char := "status update".data

/-- `line = self._strip_ansi(line).strip()` applied to one drained record. -/
def strippedLine (raw : String) : String :=
  pyStrip (String.mk (stripAnsi raw.data))

/-- The `'status update' in line` test of `drain_logs`. -/
def isStatusLine (l : String) : Bool := hasSub markerChars l.data

/-- The rendered telemetry pair (segment map, stats line) written to the two
telemetry widgets for one recognized status-update line. -/
def renderedPair (l : String) : String × String :=
  ((parse_status_update_log l).colored_segments, (parse_status_update_log l).stats_line)

/-- Content of the two telemetry widgets: the segment-map widget (cleared and
rewritten on each render) and the stats widget (replaced on each update). -/
structure TelemetryState where
  map_content : Option String
  stats_content : Option String

/-- State threaded through the transcoder-queue loop of `drain_logs`: the
telemetry widgets, the full history of telemetry renders this tick and the
`transcoder_lines` batch of plain log lines. -/
structure DrainState where
  telemetry : TelemetryState
  telemetryWrites : List (String × String)
  transcoder_lines : List String

/-- One iteration of the transcoder-queue loop of
`ServiceOrchestrator.drain_logs`: strip and trim the record, then either
parse and render a status update (clear-and-write the map widget, update the
stats widget, skip batching) or append the line to the plain batch. -/
def drainStep (st : DrainState) (raw : String) : DrainState :=
  let line := strippedLine raw
  if isStatusLine line then
    { telemetry :=
        { map_content := some (parse_status_update_log line).colored_segments
          stats_content := some (parse_status_update_log line).stats_line }
      telemetryWrites := st.telemetryWrites ++ [renderedPair line]
      transcoder_lines := st.transcoder_lines }
  else
    { telemetry := st.telemetry
      telemetryWrites := st.telemetryWrites
      transcoder_lines := st.transcoder_lines ++ [line] }

/-- The transcoder-queue drain of one `drain_logs` tick, over the list of
records drained from the queue this tick, starting from empty widgets and an
empty batch. -/
def drain_logs_transcoder (raws : List String) : DrainState :=
  raws.foldl drainStep { telemetry := { map_content := none, stats_content := none },
                         telemetryWrites := [], transcoder_lines := [] }

/-- The example status-update line of the specification. -/
def exampleStatusLine : String :=
  "status update queued=3 in_progress=1 done=12 dl_requested=2 dl_sent=1 segments=\"■■░░\" downloads=\"✓▶!–\""

/-- A concrete supervisor state with no live process. -/
def mgrIdle : TranscoderManager :=
  { media_dir := "/media", transcoder_port := 8080, config_template := "",
    stop_timeout := 5, process := none }

/-- A concrete supervisor state holding a live process. -/
def mgrLive : TranscoderManager :=
  { mgrIdle with process := some { running := true } }

/-- A concrete supervisor state whose template holds both placeholders. -/
def mgrTmpl : TranscoderManager :=
  { media_dir := "/m", transcoder_port := 8080,
    config_template := "dir: \x7bmedia_dir\x7d:\x7btranscoder_port\x7d!",
    stop_timeout := 5, process := none }

/-- The rendered element list has one element per position up to the longer
input. -/
theorem render_elems_length (s d : String) :
    (render_segment_map_elems s d).length = max s.data.length d.data.length := by
  simp [render_segment_map_elems, zipLongest]

/-- Position `i` of the rendered element list styles the position-`i` glyph
pair, the shorter side padded with the filler glyph. -/
theorem render_elems_getElem (s d : String) (i : Nat)
    (h : i < max s.data.length d.data.length) :
    (render_segment_map_elems s d)[i]? =
      some (renderCell (s.data.getD i fillerGlyph) (d.data.getD i fillerGlyph)) := by
  unfold render_segment_map_elems zipLongest
  rw [List.getElem?_map, List.getElem?_map, List.getElem?_range h]
  rfl

/-- Done download over a full-square segment glyph: foreground-only dark
green. -/
theorem renderCell_done_full (seg : Char) (h : seg = '█' ∨ seg = '■') :
    renderCell seg '✓' = "[#207520]" ++ String.mk [seg] ++ "[/]" := by
  rcases h with h | h <;> subst h <;> decide

/-- Done download over any other segment glyph: dark-green background, white
foreground. -/
theorem renderCell_done_other (seg : Char) (h : ¬(seg = '█' ∨ seg = '■')) :
    renderCell seg '✓' = "[on #207520 white]" ++ String.mk [seg] ++ "[/]" := by
  have hm : seg ∉ FULL_SQUARES := by simpa [FULL_SQUARES] using h
  unfold renderCell
  rw [if_pos rfl, if_neg hm]
  rw [show ("[on " ++ DARK_GREEN ++ " " ++ WHITE ++ "]" : String) = "[on #207520 white]" from by decide]

/-- In-progress download: orange background, white foreground. -/
theorem renderCell_progress (seg : Char) :
    renderCell seg '▶' = "[on #d97c13 white]" ++ String.mk [seg] ++ "[/]" := rfl

/-- Error download: red background, white foreground. -/
theorem renderCell_error (seg : Char) :
    renderCell seg '!' = "[on red white]" ++ String.mk [seg] ++ "[/]" := rfl

/-- Any other download glyph: the segment glyph, unstyled. -/
theorem renderCell_other (seg dl : Char) (h1 : dl ≠ '✓') (h2 : dl ≠ '▶') (h3 : dl ≠ '!') :
    renderCell seg dl = String.mk [seg] := by
  unfold renderCell
  rw [if_neg h1, if_neg h2, if_neg h3]

/-- Claim C1: for every pair of segments and downloads strings and every
position of the rendered segment map, the styling is chosen by priority on
the download glyph at that position: a check mark over one of the two
full-block segment glyphs gives dark-green foreground only with no
background; a check mark over any other segment glyph gives dark-green
background with white foreground; a play glyph gives orange background with
white foreground; an exclamation mark gives red background with white
foreground; any other download glyph emits the segment glyph unstyled. -/
theorem render_priority_c1 (s d : String) (i : Nat)
    (h : i < max s.data.length d.data.length) :
    ((d.data.getD i fillerGlyph = '✓' ∧
        (s.data.getD i fillerGlyph = '█' ∨ s.data.getD i fillerGlyph = '■')) →
      (render_segment_map_elems s d)[i]? =
        some ("[#207520]" ++ String.mk [s.data.getD i fillerGlyph] ++ "[/]"))
    ∧ ((d.data.getD i fillerGlyph = '✓' ∧
        ¬(s.data.getD i fillerGlyph = '█' ∨ s.data.getD i fillerGlyph = '■')) →
      (render_segment_map_elems s d)[i]? =
        some ("[on #207520 white]" ++ String.mk [s.data.getD i fillerGlyph] ++ "[/]"))
    ∧ (d.data.getD i fillerGlyph = '▶' →
      (render_segment_map_elems s d)[i]? =
        some ("[on #d97c13 white]" ++ String.mk [s.data.getD i fillerGlyph] ++ "[/]"))
    ∧ (d.data.getD i fillerGlyph = '!' →
      (render_segment_map_elems s d)[i]? =
        some ("[on red white]" ++ String.mk [s.data.getD i fillerGlyph] ++ "[/]"))
    ∧ (d.data.getD i fillerGlyph ≠ '✓' → d.data.getD i fillerGlyph ≠ '▶' →
        d.data.getD i fillerGlyph ≠ '!' →
      (render_segment_map_elems s d)[i]? = some (String.mk [s.data.getD i fillerGlyph])) := by
  have key := render_elems_getElem s d i h
  refine ⟨?_, ?_, ?_, ?_, ?_⟩
  · rintro ⟨h1, h2⟩
    rw [key, h1, renderCell_done_full _ h2]
  · rintro ⟨h1, h2⟩
    rw [key, h1, renderCell_done_other _ h2]
  · intro h1
    rw [key, h1, renderCell_progress]
  · intro h1
    rw [key, h1, renderCell_error]
  · intro h1 h2 h3
    rw [key, renderCell_other _ _ h1 h2 h3]

/-- Concrete instance of the C1 priority theorem: a done download over a full
square renders foreground-only dark green. -/
theorem render_priority_c1_witness :
    (render_segment_map_elems "■░" "✓✓")[0]? = some "[#207520]■[/]" := by
  have h := (render_priority_c1 "■░" "✓✓" 0 (by decide)).1 (by decide)
  rw [h]
  decide

/-- Claim C4: render_segment_map produces exactly
max(len(segments), len(downloads)) styled elements, pairing the two strings
position by position with the filler glyph substituted for the shorter side;
in particular for segments AB and downloads with the single done glyph,
position 1 renders the unstyled segment glyph B. -/
theorem segment_map_shape_c4 :
    (∀ s d : String,
      (render_segment_map_elems s d).length = max s.data.length d.data.length)
    ∧ (∀ (s d : String) (i : Nat), i < max s.data.length d.data.length →
      (render_segment_map_elems s d)[i]? =
        some (renderCell (s.data.getD i fillerGlyph) (d.data.getD i fillerGlyph)))
    ∧ (render_segment_map_elems "AB" "✓")[1]? = some "B" :=
  ⟨render_elems_length, render_elems_getElem, by decide⟩

/-- Concrete instance of the C4 pairing theorem at position 0. -/
theorem segment_map_shape_c4_witness :
    (render_segment_map_elems "AB" "✓")[0]? = some (renderCell 'A' '✓') := by
  have h := segment_map_shape_c4.2.1 "AB" "✓" 0 (by decide)
  rw [h]
  decide

/-- Claim C10: when downloads is strictly longer than segments, every
position past the end of segments renders the filler glyph with the
download-glyph styling applied to it; a done glyph beyond the segments
length produces a dark-green-background white-foreground filler. -/
theorem filler_styled_c10 (s d : String) (i : Nat)
    (h1 : s.data.length ≤ i) (h2 : i < d.data.length) :
    (render_segment_map_elems s d)[i]? =
      some (renderCell fillerGlyph (d.data.getD i fillerGlyph))
    ∧ (d.data.getD i fillerGlyph = '✓' →
      (render_segment_map_elems s d)[i]? = some "[on #207520 white]–[/]") := by
  have hmax : i < max s.data.length d.data.length :=
    Nat.lt_of_lt_of_le h2 (Nat.le_max_right _ _)
  have key := render_elems_getElem s d i hmax
  have hseg : s.data.getD i fillerGlyph = fillerGlyph := List.getD_eq_default _ _ h1
  constructor
  · rw [key, hseg]
  · intro hdl
    rw [key, hseg, hdl, renderCell_done_other _ (by decide)]
    decide

/-- Concrete instance of the C10 filler-styling theorem. -/
theorem filler_styled_c10_witness :
    (render_segment_map_elems "" "✓")[0]? = some "[on #207520 white]–[/]" :=
  (filler_styled_c10 "" "✓" 0 (by decide) (by decide)).2 (by decide)

/-- A name whose search failed contributes no key to the association list
built by scanning a list of names. -/
theorem lookup_filterMap_none (names : List String) (f : String → Option Nat)
    (name : String) (hf : f name = none) :
    (names.filterMap fun n => (f n).map fun v => (n, v)).lookup name = none := by
  induction names with
  | nil => rfl
  | cons n ns ih =>
    cases hfn : f n with
    | none => simpa [List.filterMap_cons, hfn] using ih
    | some v =>
      have hne : (name == n) = false := by
        by_cases heq : name = n
        · subst heq
          rw [hf] at hfn
          cases hfn
        · simpa using heq
      simp [List.filterMap_cons, hfn, List.lookup, hne, ih]

/-- Counterexample to claim C2 as stated: on the line consisting of the bare
marker, the returned stats mapping is empty, so the absent counters are not
present in it with value 0 — the key is simply missing. -/
theorem parse_stats_absent_cex_c2 :
    (parse_status_update_log "status update").stats = [] := by decide

/-- Claim C2 (amended): for every line and every one of the five named
counters with no name-equals-digits occurrence in the line, the returned
stats mapping has no entry for that counter, and the defaulting read used by
the parser itself (dict get with default 0) yields 0 — so defaulting reads
never fail, but the key is not materialized in the mapping. -/
theorem parse_missing_counter_c2 (line name : String)
    (hmem : name ∈ statNames)
    (hnone : searchStat name.data line.data = none) :
    (parse_status_update_log line).stats.lookup name = none
    ∧ statGet (parse_status_update_log line).stats name = 0 := by
  have hl : (parse_status_update_log line).stats.lookup name = none :=
    lookup_filterMap_none statNames (fun n => searchStat n.data line.data) name hnone
  exact ⟨hl, by simp [statGet, hl]⟩

/-- Concrete instance of the amended C2 theorem: a status line without a
queued key. -/
theorem parse_missing_counter_c2_witness :
    (parse_status_update_log "status update done=4").stats.lookup "queued" = none
    ∧ statGet (parse_status_update_log "status update done=4").stats "queued" = 0 :=
  parse_missing_counter_c2 "status update done=4" "queued" (by decide) (by decide)

/-- Claim C3: for every status-update line the stats line is the fixed-width
string built from the five parsed counters with absent counters read as 0,
each field right-justified decimal via a left space pad that never truncates;
on the specification example line the stats line is exactly the expected
string. -/
theorem stats_line_format_c3 :
    (∀ line : String, (parse_status_update_log line).stats_line =
      "Seg: " ++ padL 2 (Nat.repr (statGet (parse_status_update_log line).stats "queued"))
      ++ "q  " ++ padL 1 (Nat.repr (statGet (parse_status_update_log line).stats "in_progress"))
      ++ "i " ++ padL 2 (Nat.repr (statGet (parse_status_update_log line).stats "done"))
      ++ "d / DL: " ++ padL 2 (Nat.repr (statGet (parse_status_update_log line).stats "dl_requested"))
      ++ "r  " ++ padL 1 (Nat.repr (statGet (parse_status_update_log line).stats "dl_sent"))
      ++ "s")
    ∧ (∀ n w : Nat, ∃ k,
      padL w (Nat.repr n) = String.mk (List.replicate k ' ') ++ Nat.repr n)
    ∧ (parse_status_update_log exampleStatusLine).stats_line
        = "Seg:  3q  1i 12d / DL:  2r  1s" :=
  ⟨fun _ => rfl, fun n w => ⟨w - (Nat.repr n).data.length, rfl⟩, by decide⟩

/-- Claim C5: stop is idempotent and safe with no live process.  With no
process handle it returns its state unchanged and performs no actions; after
every return the handle is cleared; and a second consecutive stop is a no-op
returning the same state with no actions, so two stops behave as one. -/
theorem stop_idempotent_c5 :
    (∀ (m : TranscoderManager) (env : StopEnv), m.process = none →
      TranscoderManager.stop m env = (m, []))
    ∧ (∀ (m : TranscoderManager) (env : StopEnv),
      (TranscoderManager.stop m env).1.process = none)
    ∧ (∀ (m : TranscoderManager) (env env' : StopEnv),
      TranscoderManager.stop (TranscoderManager.stop m env).1 env'
        = ((TranscoderManager.stop m env).1, [])) := by
  have hclear : ∀ (m : TranscoderManager) (env : StopEnv),
      (TranscoderManager.stop m env).1.process = none := by
    intro m env
    cases hp : m.process with
    | none => simp [TranscoderManager.stop, hp]
    | some p =>
      cases env with
      | waitExits => simp [TranscoderManager.stop, hp]
      | waitTimesOut => simp [TranscoderManager.stop, hp]
      | raiseBeforeSignal alive => cases alive <;> simp [TranscoderManager.stop, hp]
      | raiseAfterSignal alive => cases alive <;> simp [TranscoderManager.stop, hp]
  have hnone : ∀ (m : TranscoderManager) (env : StopEnv), m.process = none →
      TranscoderManager.stop m env = (m, []) := by
    intro m env hp
    simp [TranscoderManager.stop, hp]
  exact ⟨hnone, hclear, fun m env env' => hnone _ env' (hclear m env)⟩

/-- Concrete instance of the C5 idempotence theorem. -/
theorem stop_idempotent_c5_witness :
    TranscoderManager.stop mgrIdle StopEnv.waitExits = (mgrIdle, [])
    ∧ (TranscoderManager.stop mgrLive StopEnv.waitTimesOut).1.process = none :=
  ⟨stop_idempotent_c5.1 mgrIdle StopEnv.waitExits rfl,
   stop_idempotent_c5.2.1 mgrLive StopEnv.waitTimesOut⟩

/-- Counterexample to claim C6 as stated: when the graceful phase raises but
the process has already exited at the handler's liveness check, no forceful
kill is issued — the trace holds only the graceful signal. -/
theorem stop_no_kill_when_dead_cex_c6 :
    mgrLive.process ≠ none
    ∧ (TranscoderManager.stop mgrLive (StopEnv.raiseAfterSignal false)).2
        = [StopAction.sendGraceful]
    ∧ StopAction.kill ∉ (TranscoderManager.stop mgrLive (StopEnv.raiseAfterSignal false)).2 := by
  refine ⟨by decide, rfl, by decide⟩

/-- Claim C6 (amended): if the graceful wait times out, or the graceful phase
raises while the process is still alive at the handler's liveness check, a
forceful kill is issued followed by an unconditional wait, the handle is
cleared and stop returns normally; an exception with an already-exited
process skips the kill. -/
theorem stop_escalation_c6 (m : TranscoderManager) (env : StopEnv)
    (hp : m.process ≠ none)
    (henv : env = StopEnv.waitTimesOut ∨ env = StopEnv.raiseBeforeSignal true
      ∨ env = StopEnv.raiseAfterSignal true) :
    (∃ pre, (TranscoderManager.stop m env).2 = pre ++ [StopAction.kill, StopAction.waitUncond])
    ∧ (TranscoderManager.stop m env).1.process = none := by
  cases hpr : m.process with
  | none => exact absurd hpr hp
  | some p =>
    rcases henv with h | h | h <;> subst h
    · exact ⟨⟨[StopAction.sendGraceful, StopAction.waitTimeout],
        by simp [TranscoderManager.stop, hpr]⟩, by simp [TranscoderManager.stop, hpr]⟩
    · exact ⟨⟨[], by simp [TranscoderManager.stop, hpr]⟩, by simp [TranscoderManager.stop, hpr]⟩
    · exact ⟨⟨[StopAction.sendGraceful],
        by simp [TranscoderManager.stop, hpr]⟩, by simp [TranscoderManager.stop, hpr]⟩

/-- Concrete instance of the amended C6 escalation theorem. -/
theorem stop_escalation_c6_witness :
    (∃ pre, (TranscoderManager.stop mgrLive StopEnv.waitTimesOut).2
        = pre ++ [StopAction.kill, StopAction.waitUncond])
    ∧ (TranscoderManager.stop mgrLive StopEnv.waitTimesOut).1.process = none :=
  stop_escalation_c6 mgrLive StopEnv.waitTimesOut (by decide) (Or.inl rfl)

/-- Claim C7: when the settle-delay check finds the worker already exited,
start reports a fatal launch failure, the held handle is to a process that is
not running, and the action trace holds exactly one spawn with no retry. -/
theorem start_launch_failure_c7 (m : TranscoderManager) :
    (TranscoderManager.start m true).launchFailed = true
    ∧ (TranscoderManager.start m true).state.process = some { running := false }
    ∧ ∃ content, (TranscoderManager.start m true).actions
        = [StartAction.writeConfig content, StartAction.spawn, StartAction.settleDelay] :=
  ⟨rfl, rfl, ⟨_, rfl⟩⟩

/-- Dropping a list from the front of itself leaves the appended tail. -/
theorem dropPre_self_append (p t : List Char) : dropPre p (p ++ t) = some t := by
  induction p with
  | nil => rfl
  | cons c cs ih => simp [dropPre, ih]

/-- The empty template formats to the empty output. -/
theorem ft_nil (dir port : List Char) : formatTemplate dir port [] = [] := by
  rw [formatTemplate.eq_def]

/-- A leading character that cannot open a placeholder is copied verbatim. -/
theorem ft_skip (dir port : List Char) (x : Char) (t : List Char) (hx : x ≠ '\x7b') :
    formatTemplate dir port (x :: t) = x :: formatTemplate dir port t := by
  have h1 : dropPre mediaPlaceholder (x :: t) = none := by
    simp only [mediaPlaceholder, dropPre]
    rw [if_neg (fun h => hx h.symm)]
  have h2 : dropPre portPlaceholder (x :: t) = none := by
    simp only [portPlaceholder, dropPre]
    rw [if_neg (fun h => hx h.symm)]
  rw [formatTemplate.eq_2]
  split
  · rename_i rest heq
    rw [h1] at heq
    simp at heq
  · split
    · rename_i rest heq
      rw [h2] at heq
      simp at heq
    · rfl

/-- A brace-free leading segment of the template is copied verbatim. -/
theorem ft_copy (dir port a t : List Char) (ha : '\x7b' ∉ a) :
    formatTemplate dir port (a ++ t) = a ++ formatTemplate dir port t := by
  induction a with
  | nil => simp
  | cons x xs ih =>
    have hx : x ≠ '\x7b' := fun h => ha (by simp [h])
    have hxs : '\x7b' ∉ xs := fun h => ha (by simp [h])
    rw [List.cons_append, ft_skip dir port x (xs ++ t) hx, ih hxs]
    rfl

/-- The directory placeholder at the head of the template is replaced by the
directory value. -/
theorem ft_media (dir port t : List Char) :
    formatTemplate dir port (mediaPlaceholder ++ t) = dir ++ formatTemplate dir port t := by
  have h1 : dropPre mediaPlaceholder (mediaPlaceholder ++ t) = some t := dropPre_self_append _ _
  simp only [mediaPlaceholder, List.cons_append, List.nil_append] at h1 ⊢
  rw [formatTemplate.eq_2]
  split
  · rename_i rest heq
    simp only [mediaPlaceholder] at heq
    rw [h1] at heq
    simp at heq
    subst heq
    rfl
  · rename_i heq
    simp only [mediaPlaceholder] at heq
    rw [h1] at heq
    simp at heq

/-- The port placeholder at the head of the template is replaced by the port
value. -/
theorem ft_port (dir port t : List Char) :
    formatTemplate dir port (portPlaceholder ++ t) = port ++ formatTemplate dir port t := by
  have h0 : dropPre mediaPlaceholder (portPlaceholder ++ t) = none := rfl
  have h1 : dropPre portPlaceholder (portPlaceholder ++ t) = some t := dropPre_self_append _ _
  simp only [mediaPlaceholder, portPlaceholder, List.cons_append, List.nil_append] at h0 h1 ⊢
  rw [formatTemplate.eq_2]
  split
  · rename_i rest heq
    simp only [mediaPlaceholder] at heq
    rw [h0] at heq
    simp at heq
  · split
    · rename_i rest heq
      simp only [portPlaceholder] at heq
      rw [h1] at heq
      simp at heq
      subst heq
      rfl
    · rename_i heq
      simp only [portPlaceholder] at heq
      rw [h1] at heq
      simp at heq

/-- A brace-free template formats to itself. -/
theorem ft_fixed (dir port a : List Char) (ha : '\x7b' ∉ a) :
    formatTemplate dir port a = a := by
  have h := ft_copy dir port a [] ha
  simpa [ft_nil] using h

/-- Claim C8: for every valid template — literal text holding neither brace
character around the two placeholders, in either order; on any other brace
use Python `str.format` raises rather than writing — and every pair of
substitution values, start writes a config file whose content is the
template with the directory placeholder and the port placeholder each
replaced exactly once by the given values and all other template text
written verbatim. -/
theorem config_substitution_c8 (m : TranscoderManager) (e : Bool) (a b c : List Char)
    (ha : '\x7b' ∉ a) (ha2 : '\x7d' ∉ a) (hb : '\x7b' ∉ b) (hb2 : '\x7d' ∉ b)
    (hc : '\x7b' ∉ c) (hc2 : '\x7d' ∉ c) :
    (m.config_template.data = a ++ mediaPlaceholder ++ b ++ portPlaceholder ++ c →
      (TranscoderManager.start m e).actions
        = [StartAction.writeConfig (String.mk (a ++ m.media_dir.data ++ b
            ++ (Nat.repr m.transcoder_port).data ++ c)),
           StartAction.spawn, StartAction.settleDelay])
    ∧ (m.config_template.data = a ++ portPlaceholder ++ b ++ mediaPlaceholder ++ c →
      (TranscoderManager.start m e).actions
        = [StartAction.writeConfig (String.mk (a ++ (Nat.repr m.transcoder_port).data ++ b
            ++ m.media_dir.data ++ c)),
           StartAction.spawn, StartAction.settleDelay]) := by
  constructor
  · intro htmp
    have hfmt : formatTemplate m.media_dir.data (Nat.repr m.transcoder_port).data
        m.config_template.data
        = a ++ m.media_dir.data ++ b ++ (Nat.repr m.transcoder_port).data ++ c := by
      rw [htmp]
      simp only [List.append_assoc]
      rw [ft_copy _ _ _ _ ha, ft_media, ft_copy _ _ _ _ hb, ft_port, ft_fixed _ _ _ hc]
    simp [TranscoderManager.start, hfmt]
  · intro htmp
    have hfmt : formatTemplate m.media_dir.data (Nat.repr m.transcoder_port).data
        m.config_template.data
        = a ++ (Nat.repr m.transcoder_port).data ++ b ++ m.media_dir.data ++ c := by
      rw [htmp]
      simp only [List.append_assoc]
      rw [ft_copy _ _ _ _ ha, ft_port, ft_copy _ _ _ _ hb, ft_media, ft_fixed _ _ _ hc]
    simp [TranscoderManager.start, hfmt]

/-- Concrete instance of the C8 substitution theorem. -/
theorem config_substitution_c8_witness :
    (TranscoderManager.start mgrTmpl false).actions
      = [StartAction.writeConfig "dir: /m:8080!", StartAction.spawn, StartAction.settleDelay] := by
  have h := (config_substitution_c8 mgrTmpl false "dir: ".data ":".data "!".data
    (by decide) (by decide) (by decide) (by decide) (by decide) (by decide)).1 (by decide)
  rw [h]
  decide

/-- Invariant of the transcoder-queue drain from any starting state: plain
lines accumulate in order, telemetry renders accumulate in order, and the
telemetry widgets hold the most recent render of the processed records when
there is one. -/
theorem drain_foldl_spec (raws : List String) : ∀ st : DrainState,
    (List.foldl drainStep st raws).transcoder_lines
      = st.transcoder_lines ++ (raws.map strippedLine).filter (fun l => !isStatusLine l)
    ∧ (List.foldl drainStep st raws).telemetryWrites
      = st.telemetryWrites ++ ((raws.map strippedLine).filter isStatusLine).map renderedPair
    ∧ (List.foldl drainStep st raws).telemetry
      = (match (((raws.map strippedLine).filter isStatusLine).map renderedPair).getLast? with
         | none => st.telemetry
         | some w => { map_content := some w.1, stats_content := some w.2 }) := by
  induction raws with
  | nil => intro st; exact ⟨by simp, by simp, by simp⟩
  | cons r rs ih =>
    intro st
    rcases ih (drainStep st r) with ⟨h1, h2, h3⟩
    by_cases hm : isStatusLine (strippedLine r)
    · have hstep_lines : (drainStep st r).transcoder_lines = st.transcoder_lines := by
        simp [drainStep, hm]
      have hstep_writes : (drainStep st r).telemetryWrites
          = st.telemetryWrites ++ [renderedPair (strippedLine r)] := by
        simp [drainStep, hm]
      have hstep_tel : (drainStep st r).telemetry
          = { map_content := some (renderedPair (strippedLine r)).1,
              stats_content := some (renderedPair (strippedLine r)).2 } := by
        simp [drainStep, hm, renderedPair]
      refine ⟨?_, ?_, ?_⟩
      · rw [List.foldl_cons, h1, hstep_lines]
        simp [hm]
      · rw [List.foldl_cons, h2, hstep_writes]
        simp [hm]
      · rw [List.foldl_cons, h3, hstep_tel]
        simp only [List.map_cons, List.filter_cons, hm, if_true]
        cases hR : ((rs.map strippedLine).filter isStatusLine).map renderedPair with
        | nil => simp
        | cons w ws =>
          rw [List.getLast?_cons_cons]
          cases hglast : (w :: ws).getLast? with
          | none =>
            have hne : (w :: ws).getLast?.isSome = true :=
              List.getLast?_isSome.mpr (by simp)
            rw [hglast] at hne
            simp at hne
          | some l => simp
    · have hstep : drainStep st r
          = { telemetry := st.telemetry, telemetryWrites := st.telemetryWrites,
              transcoder_lines := st.transcoder_lines ++ [strippedLine r] } := by
        simp [drainStep, hm]
      refine ⟨?_, ?_, ?_⟩
      · rw [List.foldl_cons, h1, hstep]
        simp [hm]
      · rw [List.foldl_cons, h2, hstep]
        simp [hm]
      · rw [List.foldl_cons, h3, hstep]
        simp [hm]

/-- Claim C9: within a single drain tick, every drained record whose
ANSI-stripped text contains the status-update marker is parsed and rendered
instead of being batched as a plain log line, and the telemetry consumer ends
the tick holding exactly the most recent rendered result, each render having
superseded the previous one. -/
theorem drain_telemetry_c9 (raws : List String) :
    (drain_logs_transcoder raws).transcoder_lines
      = (raws.map strippedLine).filter (fun l => !isStatusLine l)
    ∧ (drain_logs_transcoder raws).telemetryWrites
      = ((raws.map strippedLine).filter isStatusLine).map renderedPair
    ∧ (drain_logs_transcoder raws).telemetry.map_content
      = Option.map Prod.fst (drain_logs_transcoder raws).telemetryWrites.getLast?
    ∧ (drain_logs_transcoder raws).telemetry.stats_content
      = Option.map Prod.snd (drain_logs_transcoder raws).telemetryWrites.getLast? := by
  rcases drain_foldl_spec raws
      { telemetry := { map_content := none, stats_content := none },
        telemetryWrites := [], transcoder_lines := [] } with ⟨h1, h2, h3⟩
  have g1 : (drain_logs_transcoder raws).transcoder_lines
      = (raws.map strippedLine).filter (fun l => !isStatusLine l) := by
    unfold drain_logs_transcoder
    simpa using h1
  have g2 : (drain_logs_transcoder raws).telemetryWrites
      = ((raws.map strippedLine).filter isStatusLine).map renderedPair := by
    unfold drain_logs_transcoder
    simpa using h2
  have g3 : (drain_logs_transcoder raws).telemetry
      = (match (((raws.map strippedLine).filter isStatusLine).map renderedPair).getLast? with
         | none => { map_content := none, stats_content := none }
         | some w => { map_content := some w.1, stats_content := some w.2 }) := by
    unfold drain_logs_transcoder
    exact h3
  refine ⟨g1, g2, ?_, ?_⟩
  · rw [g2, g3]
    cases hcase : (((raws.map strippedLine).filter isStatusLine).map renderedPair).getLast? with
    | none => simp
    | some l => simp
  · rw [g2, g3]
    cases hcase : (((raws.map strippedLine).filter isStatusLine).map renderedPair).getLast? with
    | none => simp
    | some l => simp
